import Mathlib

/-!
A shallow embedding of `server.py`, the static-file development HTTP
server of this repository, together with proofs about its argument
handling, startup file check, error handling and per-request behavior.

The filesystem, the command line and the outcome of the bind attempt are
explicit parameters; console output is modelled as a list of printed
lines and process termination as an exit code.
-/

namespace DevServer

/-- Kind of a filesystem entry. `os.path.exists` does not distinguish
regular files from directories, so the kind is recorded separately. -/
inductive EntryKind
  | file
  | dir
deriving DecidableEq, Repr

/-- The filesystem visible to the process: each path maps to the kind of
the entry at that path, or `none` when no entry exists there. -/
def FileSystem : Type := String → Option EntryKind

/-- `os.path.exists(p)`: true iff an entry of any kind exists at `p`. -/
def osPathExists (fs : FileSystem) (p : String) : Bool :=
  (fs p).isSome

/-- Module-level configuration `PORT = 8000`, the default port. -/
def PORT : Int := 8000

/-- Module-level configuration `HOST = 'localhost'`. -/
def HOST : String := "localhost"

/-- The three CORS headers that `CustomHTTPRequestHandler.end_headers`
queues on every response before flushing. -/
def corsHeaders : List (String × String) :=
  [("Access-Control-Allow-Origin", "*"),
   ("Access-Control-Allow-Methods", "GET, POST, OPTIONS"),
   ("Access-Control-Allow-Headers", "Content-Type")]

/-- The `end_headers` override: the headers already queued by earlier
`send_header` calls are followed by the three CORS headers, and then the
base class flushes the buffer in that order. -/
def end_headers (queued : List (String × String)) : List (String × String) :=
  queued ++ corsHeaders

/-- One HTTP request, as far as the handler's dispatch looks at it. -/
structure Request where
  method : String
  path : String

/-- One HTTP response on the wire: status line, headers, body bytes. -/
structure HttpResponse where
  status : Nat
  headers : List (String × String)
  body : List Nat

/-- The inherited `SimpleHTTPRequestHandler` machinery (the external
static-file collaborator): for a request it chooses a status, queues
headers via `send_header`, and yields a body, all before the overridden
`end_headers` runs. -/
def BaseHandler : Type :=
  Request → FileSystem → Nat × List (String × String) × List Nat

/-- Dispatch of one request by `CustomHTTPRequestHandler`: `do_OPTIONS`
runs `send_response(200); end_headers()` and sends no body and queues no
headers of its own; any other method is delegated to the base class,
whose queued headers pass through the overridden `end_headers`. -/
def handle (base : BaseHandler) (fs : FileSystem) (req : Request) : HttpResponse :=
  if req.method = "OPTIONS" then
    { status := 200, headers := end_headers [], body := [] }
  else
    { status := (base req fs).1,
      headers := end_headers (base req fs).2.1,
      body := (base req fs).2.2 }

/-- `required_files` inside `check_files`. -/
def required_files : List String := ["index.html"]

/-- `optional_files` inside `check_files`. -/
def optional_files : List String :=
  ["js/order-manager.js", "quick-order-test.html", "test-order-saving.html"]

/-- The `f"   • {file}"` bullet line printed for each missing file. -/
def bullet (f : String) : String := "   • " ++ f

/-- Result of `check_files()`: the returned boolean and the lines it
printed on the way. -/
structure CheckResult where
  ok : Bool
  output : List String
deriving DecidableEq, Repr

/-- `check_files()`: collect the required and optional files that are
missing from the working directory; when a required file is missing,
print the error block with one bullet per missing required file and
return `False`; otherwise print the optional-files warning block when
applicable and return `True`. -/
def check_files (fs : FileSystem) : CheckResult :=
  let missing_required := required_files.filter (fun f => !(osPathExists fs f))
  let missing_optional := optional_files.filter (fun f => !(osPathExists fs f))
  if missing_required ≠ [] then
    { ok := false,
      output := ["❌ Error: Required files are missing:"]
        ++ missing_required.map bullet
        ++ ["", "💡 Make sure you're running this from the project root directory"] }
  else if missing_optional ≠ [] then
    { ok := true,
      output := ["⚠️  Note: Some optional files are missing (server will still start):"]
        ++ missing_optional.map bullet ++ [""] }
  else
    { ok := true, output := [] }

/-- Result of the argument scan at the top of `__main__`: either continue
into the startup sequence with an effective port, or terminate at once
with an exit code after printing the given lines. -/
inductive ArgResult
  | proceed (port : Int)
  | exit (code : Nat) (output : List String)
deriving DecidableEq, Repr

/-- The `"❌ Error: Port must be a number"` message. -/
def portErrorMsg : String := "❌ Error: Port must be a number"

/-- The usage text printed for `-h` / `--help`. -/
def usageLines : List String :=
  ["Usage: python server.py [--port PORT]",
   "  --port PORT    Use a specific port (default: 8000)",
   "  -h, --help     Show this help message"]

/-- Accumulate the value of a decimal digit string; any non-digit
character makes the whole conversion fail. -/
def digitsVal? (cs : List Char) (acc : Nat) : Option Nat :=
  match cs with
  | [] => some acc
  | c :: rest =>
      if c.isDigit then digitsVal? rest (acc * 10 + (c.toNat - 48)) else none

/-- Model of Python's `int(s)` conversion at `PORT = int(sys.argv[2])`:
an optional sign followed by one or more decimal digits yields that
integer, and any other string raises `ValueError`, modelled as
`none`. -/
def pythonInt? (s : String) : Option Int :=
  match s.toList with
  | [] => none
  | c :: rest =>
      if c = '-' then
        match rest with
        | [] => none
        | _ :: _ => (digitsVal? rest 0).map (fun n => -(n : Int))
      else if c = '+' then
        match rest with
        | [] => none
        | _ :: _ => (digitsVal? rest 0).map (fun n => (n : Int))
      else
        (digitsVal? (c :: rest) 0).map (fun n => (n : Int))

/-- The argument scan of `__main__`, on the full `sys.argv` (program name
first). `--port` followed by a value reassigns the port, and a value that
does not parse prints an error and exits 1; `-h`/`--help` prints usage
and exits 0; any other first argument falls through silently to the
default port. `--port` with no following value fails the
`len(sys.argv) > 2` test and, not being `-h`/`--help`, also falls
through silently. -/
def parse_args (argv : List String) : ArgResult :=
  match argv with
  | _prog :: arg1 :: rest =>
      if arg1 = "--port" then
        match rest with
        | v :: _ =>
            match pythonInt? v with
            | some n => ArgResult.proceed n
            | none => ArgResult.exit 1 [portErrorMsg]
        | [] => ArgResult.proceed PORT
      else if arg1 = "-h" ∨ arg1 = "--help" then
        ArgResult.exit 0 usageLines
      else
        ArgResult.proceed PORT
  | _ => ArgResult.proceed PORT

/-- What the `try` block of `start_server` observes: the bind succeeds and
`serve_forever()` runs until the user interrupt (`KeyboardInterrupt`), or
the bind raises `OSError` with some errno, or some other exception
carrying a message is raised. -/
inductive BindOutcome
  | success
  | osError (errno : Int)
  | failure (msg : String)
deriving DecidableEq, Repr

/-- Outcome of a whole run: exit status, console lines in order, and
whether a listening socket was ever created. -/
structure ProcessResult where
  exitCode : Nat
  output : List String
  socketOpened : Bool
deriving DecidableEq, Repr

/-- The errno `start_server` compares the `OSError` against, carrying the
source's own comment `# Address already in use`. -/
def EADDRINUSE : Int := 48

/-- A line of 60 `=` characters, `"=" * 60`. -/
def sepLine : String := String.mk (List.replicate 60 (Char.ofNat 61))

/-- The startup banner printed once the bind has succeeded. -/
def serverBanner (port : Int) : List String :=
  [sepLine,
   "🚀 Otomono Jerseys Development Server",
   sepLine,
   s!"📍 Server running at: http://{HOST}:{port}",
   "📁 Serving files from: <cwd>",
   sepLine,
   "🔗 Quick Links:",
   s!"   • Main Site: http://{HOST}:{port}/index.html",
   s!"   • Order Test: http://{HOST}:{port}/quick-order-test.html",
   s!"   • Full Test: http://{HOST}:{port}/test-order-saving.html",
   sepLine,
   "💡 Press Ctrl+C to stop the server",
   sepLine,
   "🌐 Browser opened automatically",
   "🔄 Server started successfully!",
   "📝 Check the console for any errors or requests"]

/-- `start_server()`: on a successful bind it prints the banner and serves
until the user interrupt, then prints the stop and farewell lines and
calls `sys.exit(0)`; an `OSError` whose errno equals `EADDRINUSE` gets
the specific port-in-use report, any other `OSError` the generic
`Error starting server` report, and any other exception the generic
`Unexpected error` report, each followed by `sys.exit(1)` with no
listening socket created. -/
def start_server (port : Int) (bind : BindOutcome) : ProcessResult :=
  match bind with
  | BindOutcome.success =>
      { exitCode := 0,
        output := serverBanner port ++ ["🛑 Server stopped by user", "👋 Goodbye!"],
        socketOpened := true }
  | BindOutcome.osError errno =>
      if errno = EADDRINUSE then
        { exitCode := 1,
          output := [s!"❌ Error: Port {port} is already in use",
                     s!"💡 Try a different port or stop the process using port {port}",
                     "🔧 Alternative: python server.py --port 8001"],
          socketOpened := false }
      else
        { exitCode := 1,
          output := [s!"❌ Error starting server: [Errno {errno}]"],
          socketOpened := false }
  | BindOutcome.failure msg =>
      { exitCode := 1,
        output := [s!"❌ Unexpected error: {msg}"],
        socketOpened := false }

/-- The `__main__` sequence: scan the arguments; when they proceed, run
`check_files` and, when it fails, print the project-root reminder and
exit 1 before any socket is created; otherwise start the server. -/
def main (argv : List String) (fs : FileSystem) (bind : BindOutcome) : ProcessResult :=
  match parse_args argv with
  | ArgResult.exit c out =>
      { exitCode := c, output := out, socketOpened := false }
  | ArgResult.proceed port =>
      let chk := check_files fs
      if chk.ok then
        let r := start_server port bind
        { exitCode := r.exitCode,
          output := chk.output ++ r.output,
          socketOpened := r.socketOpened }
      else
        { exitCode := 1,
          output := chk.output
            ++ ["❌ Please run this script from the project root directory"],
          socketOpened := false }

/-- A filesystem with no entries at all. -/
def fsEmpty : FileSystem := fun _ => none

/-- A filesystem whose only entry is a directory named `index.html`. -/
def fsDirIndex : FileSystem :=
  fun p => if p = "index.html" then some EntryKind.dir else none

/-- C1: every HTTP response the server sends, for any request method,
any path, any filesystem and any base-handler behavior, carries the
three CORS headers `Access-Control-Allow-Origin: *`,
`Access-Control-Allow-Methods: GET, POST, OPTIONS` and
`Access-Control-Allow-Headers: Content-Type`. -/
theorem cors_headers_on_every_response (base : BaseHandler) (fs : FileSystem)
    (req : Request) :
    ("Access-Control-Allow-Origin", "*") ∈ (handle base fs req).headers ∧
    ("Access-Control-Allow-Methods", "GET, POST, OPTIONS") ∈ (handle base fs req).headers ∧
    ("Access-Control-Allow-Headers", "Content-Type") ∈ (handle base fs req).headers := by
  unfold handle
  by_cases h : req.method = "OPTIONS" <;> simp [h, end_headers, corsHeaders]

/-- C2: an `OPTIONS` request to any path is answered with status 200, an
empty body and the three CORS headers, and the response is identical
whatever the filesystem and the base handler, so the filesystem is never
consulted to build it. -/
theorem options_request_response (base base1 : BaseHandler) (fs fs1 : FileSystem)
    (p : String) :
    (handle base fs { method := "OPTIONS", path := p }).status = 200 ∧
    (handle base fs { method := "OPTIONS", path := p }).body = [] ∧
    ("Access-Control-Allow-Origin", "*")
      ∈ (handle base fs { method := "OPTIONS", path := p }).headers ∧
    ("Access-Control-Allow-Methods", "GET, POST, OPTIONS")
      ∈ (handle base fs { method := "OPTIONS", path := p }).headers ∧
    ("Access-Control-Allow-Headers", "Content-Type")
      ∈ (handle base fs { method := "OPTIONS", path := p }).headers ∧
    handle base fs { method := "OPTIONS", path := p }
      = handle base1 fs1 { method := "OPTIONS", path := p } := by
  simp [handle, end_headers, corsHeaders]

/-- C8: after a successful start, the user interrupt stops the serve loop
and the run ends with the stop and farewell lines printed and exit
status 0. -/
theorem interrupt_graceful_exit (port : Int) :
    (start_server port BindOutcome.success).exitCode = 0 ∧
    "🛑 Server stopped by user" ∈ (start_server port BindOutcome.success).output ∧
    "👋 Goodbye!" ∈ (start_server port BindOutcome.success).output := by
  unfold start_server
  simp

/-- C3: a failed bind exits with status 1 and never opens a socket; when
the `OSError` errno is the address-in-use one the report names the port
specifically, and for any other errno the error is reported
generically. -/
theorem bind_error_exits_one (port errno : Int) (m : String) :
    (start_server port (BindOutcome.osError errno)).exitCode = 1 ∧
    (start_server port (BindOutcome.osError errno)).socketOpened = false ∧
    (errno = EADDRINUSE →
      s!"❌ Error: Port {port} is already in use"
        ∈ (start_server port (BindOutcome.osError errno)).output) ∧
    (errno ≠ EADDRINUSE →
      s!"❌ Error starting server: [Errno {errno}]"
        ∈ (start_server port (BindOutcome.osError errno)).output) ∧
    (start_server port (BindOutcome.failure m)).exitCode = 1 ∧
    s!"❌ Unexpected error: {m}" ∈ (start_server port (BindOutcome.failure m)).output := by
  unfold start_server
  by_cases h : errno = EADDRINUSE <;> simp [h]

/-- Instantiation of the bind-failure theorem at port 8000 and the
address-in-use errno 48. -/
theorem bind_error_exits_one_witness :
    (start_server 8000 (BindOutcome.osError 48)).exitCode = 1 ∧
    s!"❌ Error: Port {(8000 : Int)} is already in use"
      ∈ (start_server 8000 (BindOutcome.osError 48)).output :=
  ⟨(bind_error_exits_one 8000 48 "boom").1,
   (bind_error_exits_one 8000 48 "boom").2.2.1 rfl⟩

/-- C4: when no entry named `index.html` exists in the working directory,
any run whose arguments proceed past the scan reports the missing
filename and exits with status 1, with no listening socket created. -/
theorem missing_index_exits_before_socket (argv : List String) (fs : FileSystem)
    (bind : BindOutcome) (port : Int)
    (hargs : parse_args argv = ArgResult.proceed port)
    (hmiss : fs "index.html" = none) :
    (main argv fs bind).exitCode = 1 ∧
    (main argv fs bind).socketOpened = false ∧
    "❌ Error: Required files are missing:" ∈ (main argv fs bind).output ∧
    bullet "index.html" ∈ (main argv fs bind).output := by
  have hchk : check_files fs =
      { ok := false,
        output := ["❌ Error: Required files are missing:", bullet "index.html", "",
                   "💡 Make sure you're running this from the project root directory"] } := by
    simp [check_files, required_files, osPathExists, hmiss]
  unfold main
  rw [hargs]
  simp [hchk]

/-- Instantiation of the missing-required-file theorem on the empty
filesystem with a bare command line. -/
theorem missing_index_exits_before_socket_witness :
    (main ["server.py"] fsEmpty BindOutcome.success).exitCode = 1 ∧
    (main ["server.py"] fsEmpty BindOutcome.success).socketOpened = false ∧
    bullet "index.html" ∈ (main ["server.py"] fsEmpty BindOutcome.success).output := by
  have h := missing_index_exits_before_socket ["server.py"] fsEmpty
    BindOutcome.success PORT rfl rfl
  exact ⟨h.1, h.2.1, h.2.2.2⟩

/-- C5: `check_files` returns false and prints a bullet for every missing
required filename when some required file is absent; when every required
file exists it returns true, and a missing optional file only adds a
warning bullet without blocking. -/
theorem check_files_correct (fs : FileSystem) :
    ((∃ f ∈ required_files, osPathExists fs f = false) →
      (check_files fs).ok = false ∧
      (∀ f ∈ required_files, osPathExists fs f = false →
        bullet f ∈ (check_files fs).output)) ∧
    ((∀ f ∈ required_files, osPathExists fs f = true) →
      (check_files fs).ok = true ∧
      (∀ g ∈ optional_files, osPathExists fs g = false →
        bullet g ∈ (check_files fs).output)) := by
  by_cases h1 : osPathExists fs "index.html" = true <;>
  by_cases h2 : osPathExists fs "js/order-manager.js" = true <;>
  by_cases h3 : osPathExists fs "quick-order-test.html" = true <;>
  by_cases h4 : osPathExists fs "test-order-saving.html" = true <;>
    simp_all [check_files, required_files, optional_files]

/-- Instantiation of the `check_files` theorem on the empty filesystem,
where the one required file is missing. -/
theorem check_files_correct_witness :
    (check_files fsEmpty).ok = false ∧
    bullet "index.html" ∈ (check_files fsEmpty).output := by
  have h := (check_files_correct fsEmpty).1
    ⟨"index.html", by simp [required_files], rfl⟩
  exact ⟨h.1, h.2 "index.html" (by simp [required_files]) rfl⟩

/-- C6: a `--port` value that does not parse as an integer makes the run
print the usage error and exit with status 1 before any socket is
opened, whatever the filesystem. -/
theorem bad_port_arg_exits (prog v : String) (rest : List String)
    (fs : FileSystem) (bind : BindOutcome)
    (h : pythonInt? v = none) :
    (main (prog :: "--port" :: v :: rest) fs bind).exitCode = 1 ∧
    (main (prog :: "--port" :: v :: rest) fs bind).socketOpened = false ∧
    portErrorMsg ∈ (main (prog :: "--port" :: v :: rest) fs bind).output := by
  unfold main parse_args
  simp [h]

/-- Instantiation of the bad-port theorem at `--port abc`. -/
theorem bad_port_arg_exits_witness :
    (main ["server.py", "--port", "abc"] fsEmpty BindOutcome.success).exitCode = 1 ∧
    portErrorMsg
      ∈ (main ["server.py", "--port", "abc"] fsEmpty BindOutcome.success).output := by
  have h := bad_port_arg_exits "server.py" "abc" [] fsEmpty BindOutcome.success
    (by decide)
  exact ⟨h.1, h.2.2⟩

/-- C7 counterexample: `--port -5` is accepted by the argument scan and
configures port `-5`, which is not a positive integer, so not every
accepted configuration has a positive port. -/
theorem port_positive_counterexample :
    parse_args ["server.py", "--port", "-5"] = ArgResult.proceed (-5) ∧
    ¬(0 < (-5 : Int)) := by
  exact ⟨rfl, by decide⟩

/-- C7 amended: the default configuration uses the positive port 8000,
and `--port` configures exactly the integer its value parses to, which
may be zero or negative. -/
theorem configured_port_amended :
    parse_args ["server.py"] = ArgResult.proceed PORT ∧ (0 : Int) < PORT ∧
    (∀ prog v rest n, pythonInt? v = some n →
      parse_args (prog :: "--port" :: v :: rest) = ArgResult.proceed n) := by
  refine ⟨rfl, by decide, ?_⟩
  intro prog v rest n h
  unfold parse_args
  simp [h]

/-- Instantiation of the amended port theorem at `--port 8001`. -/
theorem configured_port_amended_witness :
    parse_args ["server.py", "--port", "8001"] = ArgResult.proceed 8001 :=
  configured_port_amended.2.2 "server.py" "8001" [] 8001 (by decide)

/-- C9: a first argument that is neither `--port`-followed-by-a-value nor
`-h`/`--help` — including a bare `--port` — is ignored without any
message or exit, and the run proceeds with the default port 8000. -/
theorem unrecognized_arg_ignored (prog a1 : String) (rest : List String)
    (hport : a1 ≠ "--port" ∨ rest = [])
    (hh : a1 ≠ "-h") (hhelp : a1 ≠ "--help") :
    parse_args (prog :: a1 :: rest) = ArgResult.proceed PORT ∧ PORT = 8000 := by
  refine ⟨?_, rfl⟩
  rcases hport with hp | hr
  · unfold parse_args
    simp [hp, hh, hhelp]
  · subst hr
    by_cases hp : a1 = "--port"
    · unfold parse_args
      simp [hp]
    · unfold parse_args
      simp [hp, hh, hhelp]

/-- Instantiation of the ignored-argument theorem at `--verbose`. -/
theorem unrecognized_arg_ignored_witness :
    parse_args ["server.py", "--verbose"] = ArgResult.proceed PORT ∧ PORT = 8000 :=
  unrecognized_arg_ignored "server.py" "--verbose" []
    (Or.inl (by decide)) (by decide) (by decide)

/-- C10: the file check only asks `os.path.exists`, never the entry kind,
so a directory named `index.html` satisfies the required-file check and
the run goes on to create the listening socket. -/
theorem directory_index_satisfies_check (fs : FileSystem) (prog : String)
    (h : fs "index.html" = some EntryKind.dir) :
    (check_files fs).ok = true ∧
    (main [prog] fs BindOutcome.success).socketOpened = true ∧
    (main [prog] fs BindOutcome.success).exitCode = 0 := by
  have hex : osPathExists fs "index.html" = true := by
    simp [osPathExists, h]
  have hok : (check_files fs).ok = true := by
    unfold check_files
    simp [required_files, hex]
    split <;> rfl
  refine ⟨hok, ?_, ?_⟩ <;>
    · unfold main parse_args
      simp [hok, start_server]

/-- Instantiation of the directory-as-index theorem on a filesystem whose
only entry is a directory named `index.html`. -/
theorem directory_index_satisfies_check_witness :
    (check_files fsDirIndex).ok = true ∧
    (main ["server.py"] fsDirIndex BindOutcome.success).socketOpened = true := by
  have h := directory_index_satisfies_check fsDirIndex "server.py" (by decide)
  exact ⟨h.1, h.2.1⟩

end DevServer
